import Mathlib

/-!
# Verification of the smart-fetcher NL retrieval-and-verification pipeline

Shallow embedding of the core components of the `smart-fetcher` repository:

* `src/utils/link_verifier.py`    — internal link verification,
* `src/services/resource_store.py` — in-memory resource store,
* `src/services/nl_tag_extractor.py` — tag extraction (LLM + keyword fallback),
* `src/services/nl_search_service.py` — NL search orchestration,
* `src/services/agent/react_agent.py` — the experimental retrieval agent.

Python strings are modelled as `List Char` (queries, tags and identifiers in
this code base are ASCII).  Python floats are modelled as exact rationals `ℚ`;
every numeric literal appearing in the code (0.0, 0.5, 0.7, 1.0, 0.15) and
every comparison performed on them in the source yields the same result in
IEEE-754 double precision and in `ℚ`.  Fallible Python code is embedded in
`Except PyErr`; in particular, an access to an attribute that the accessed
class does not define raises `AttributeError` in Python and is embedded as
`Except.error (PyErr.attributeError ...)`.
-/

/-- Python exception values, as far as the embedded code can raise or inspect
them.  `attributeError cls attr` stands for the `AttributeError` raised by
accessing attribute `attr` on an object of class `cls`; `exc msg` is any other
exception carrying message `msg`. -/
inductive PyErr where
  | attributeError (cls attr : List Char)
  | exc (msg : List Char)
deriving DecidableEq, Repr

/-- `str(e)` for an embedded Python exception.  For `AttributeError` CPython
renders `'<cls>' object has no attribute '<attr>'`. -/
def PyErr.message : PyErr → List Char
  | .attributeError cls attr =>
      [Char.ofNat 39] ++ cls ++ (String.toList "' object has no attribute '") ++
        attr ++ [Char.ofNat 39]
  | .exc msg => msg

/-- A resource record (`src/models/resource.py`): uuid, name, description and
a single categorical tag. -/
structure Resource where
  uuid : List Char
  name : List Char
  description : List Char
  search_tag : List Char
deriving DecidableEq, Repr

/-- The in-memory resource store (`ResourceStore` in
`src/services/resource_store.py`).  The Python class keeps a dict keyed by
uuid plus a tag index, both built from the input list; since Python dicts
preserve insertion order we model the store by that input list (the stores
built by the program — `generate_resources` and the test fixtures — have
pairwise distinct uuids, under which the dict and the list agree). -/
structure ResourceStore where
  resources : List Resource
deriving DecidableEq, Repr

/-- `ResourceStore.get_by_uuid`: dict lookup by uuid. -/
def ResourceStore.get_by_uuid (s : ResourceStore) (u : List Char) : Option Resource :=
  s.resources.find? (fun r => r.uuid = u)

/-- `ResourceStore.get_all`: all resources in insertion order. -/
def ResourceStore.get_all (s : ResourceStore) : List Resource :=
  s.resources

/-- `ResourceStore.count`. -/
def ResourceStore.count (s : ResourceStore) : Nat :=
  s.resources.length

/-- First-occurrence deduplication, the order in which keys enter the
`_tags_to_uuids` dict in `ResourceStore.__init__`. -/
def dedupFirstAux (seen : List (List Char)) : List (List Char) → List (List Char)
  | [] => []
  | x :: xs =>
      if x ∈ seen then dedupFirstAux seen xs
      else x :: dedupFirstAux (x :: seen) xs

/-- `ResourceStore.get_unique_tags`: the keys of the tag index, in order of
first occurrence. -/
def ResourceStore.get_unique_tags (s : ResourceStore) : List (List Char) :=
  dedupFirstAux [] (s.resources.map (·.search_tag))

/-- `ResourceStore` defines only `get_by_uuid`, `get_all`, `get_unique_tags`,
`get_by_uuids`, `count` and `get_resources_context`; the call
`resource_store.get_by_tags(...)` in `NLSearchService.search`
(src/services/nl_search_service.py lines 76 and 81) therefore raises
`AttributeError` in Python, which this embedding makes explicit. -/
def ResourceStore.get_by_tags (_s : ResourceStore) (_tags : List (List Char)) :
    Except PyErr (List Resource) :=
  .error (.attributeError (String.toList "ResourceStore") (String.toList "get_by_tags"))

/-! ## Link verifier (`src/utils/link_verifier.py`) -/

/-- The character class `[0-9a-f]` under `re.IGNORECASE`, i.e. a hexadecimal
digit of either case. -/
def isHexChar (c : Char) : Bool :=
  ('0' ≤ c && c ≤ '9') || ('a' ≤ c && c ≤ 'f') || ('A' ≤ c && c ≤ 'F')

/-- Consume exactly `n` hexadecimal characters, returning the remainder. -/
def consumeHex : Nat → List Char → Option (List Char)
  | 0, cs => some cs
  | _ + 1, [] => none
  | n + 1, c :: cs => if isHexChar c then consumeHex n cs else none

/-- Consume a single dash. -/
def consumeDash : List Char → Option (List Char)
  | '-' :: cs => some cs
  | _ => none

/-- `UUID_PATTERN.match`: the regex
`^[0-9a-f]{8}-[0-9a-f]{4}-[0-9a-f]{4}-[0-9a-f]{4}-[0-9a-f]{12}$` with
`re.IGNORECASE` (src/utils/link_verifier.py lines 12–15).  Python's `$`
matches at the end of the string or just before one newline at the end of
the string, so the pattern also accepts the five hexadecimal groups followed
by a single trailing newline. -/
def UUID_PATTERN_match (cs : List Char) : Bool :=
  (do
    let r ← consumeHex 8 cs
    let r ← consumeDash r
    let r ← consumeHex 4 r
    let r ← consumeDash r
    let r ← consumeHex 4 r
    let r ← consumeDash r
    let r ← consumeHex 4 r
    let r ← consumeDash r
    let r ← consumeHex 12 r
    if r.isEmpty || r = [Char.ofNat 10] then some () else none).isSome

/-- The spec's identifier syntax, stated from the spec's words ("an
8-4-4-4-12 hexadecimal identifier", case-insensitive): exactly the five
hexadecimal groups and nothing more.  Spec-side definition, kept to compare
against the code's `UUID_PATTERN_match`, which accepts strictly more (one
trailing newline). -/
def uuidSpecFormat (cs : List Char) : Bool :=
  (do
    let r ← consumeHex 8 cs
    let r ← consumeDash r
    let r ← consumeHex 4 r
    let r ← consumeDash r
    let r ← consumeHex 4 r
    let r ← consumeDash r
    let r ← consumeHex 4 r
    let r ← consumeDash r
    let r ← consumeHex 12 r
    if r.isEmpty then some () else none).isSome

/-- `LinkVerificationResult` (src/utils/link_verifier.py lines 18–29). -/
structure LinkVerificationResult where
  valid : Bool
  uuid : Option (List Char)
  error : Option (List Char)
deriving DecidableEq, Repr

/-- The literal `"/resources/"`. -/
def resourcesRoute : List Char := String.toList "/resources/"

/-- `verify_internal_link` (src/utils/link_verifier.py lines 32–75):
prefix check, UUID-format check, then store lookup; the error messages are the
source's f-strings. -/
def verify_internal_link (link : List Char) (resource_store : ResourceStore) :
    LinkVerificationResult :=
  if ¬ (resourcesRoute.isPrefixOf link) then
    { valid := false, uuid := none,
      error := some ((String.toList "Link must start with /resources/, got: ") ++ link) }
  else
    let uuid_part := link.drop resourcesRoute.length
    if ¬ (UUID_PATTERN_match uuid_part) then
      { valid := false, uuid := none,
        error := some ((String.toList "Invalid UUID format: ") ++ uuid_part) }
    else
      match resource_store.get_by_uuid uuid_part with
      | none =>
          { valid := false, uuid := some uuid_part,
            error := some ((String.toList "UUID not found in resource store: ") ++ uuid_part) }
      | some _ =>
          { valid := true, uuid := some uuid_part, error := none }

/-- `LinkVerifier.verify_link` (src/utils/link_verifier.py lines 90–113) with
a resource store attached, as constructed in `src/main.py`: full verification
for internal links, format-only acceptance for external URLs. -/
def LinkVerifier.verify_link (resource_store : ResourceStore) (url : List Char) : Bool :=
  if resourcesRoute.isPrefixOf url then
    (verify_internal_link url resource_store).valid
  else
    (String.toList "http://").isPrefixOf url || (String.toList "https://").isPrefixOf url

/-! ## Helper lemmas about lists -/

/-- A list is a Boolean prefix of itself followed by anything. -/
theorem isPrefixOf_append_self {α : Type} [DecidableEq α] (p u : List α) :
    p.isPrefixOf (p ++ u) = true := by
  induction p with
  | nil => simp [List.isPrefixOf]
  | cons a as ih => simp [List.isPrefixOf, ih]

/-- A demonstration resource and store, used by witness theorems.  The uuid is
in the canonical 8-4-4-4-12 lowercase hexadecimal form that
`generate_resources` produces via `str(uuid.UUID(int=...))`. -/
def demoResource : Resource :=
  { uuid := String.toList "550e8400-e29b-41d4-a716-446655440001",
    name := String.toList "Hiking Basics",
    description := String.toList "Starter guide for safe hiking.",
    search_tag := String.toList "hiking" }

/-- A store holding exactly `demoResource`. -/
def demoStore : ResourceStore := { resources := [demoResource] }

/-- C3: for every resource present in the resource store whose uuid is in the
canonical 8-4-4-4-12 hexadecimal form (as all uuids produced by
`generate_resources` are), verifying the link `"/resources/" + uuid` yields
`valid = true`, extracts that same uuid, and reports no error. -/
theorem verify_internal_link_roundtrip (store : ResourceStore) (r : Resource)
    (hmem : r ∈ store.resources) (hfmt : UUID_PATTERN_match r.uuid = true) :
    (verify_internal_link (resourcesRoute ++ r.uuid) store).valid = true ∧
    (verify_internal_link (resourcesRoute ++ r.uuid) store).uuid = some r.uuid ∧
    (verify_internal_link (resourcesRoute ++ r.uuid) store).error = none := by
  have hpre : resourcesRoute.isPrefixOf (resourcesRoute ++ r.uuid) = true :=
    isPrefixOf_append_self _ _
  have hdrop : (resourcesRoute ++ r.uuid).drop resourcesRoute.length = r.uuid :=
    List.drop_left _ _
  have hfind : (store.get_by_uuid r.uuid).isSome := by
    rw [ResourceStore.get_by_uuid, List.find?_isSome]
    exact ⟨r, hmem, by simp⟩
  obtain ⟨r', hr'⟩ := Option.isSome_iff_exists.mp hfind
  refine ⟨?_, ?_, ?_⟩ <;> simp [verify_internal_link, hpre, hdrop, hfmt, hr']

/-- Witness for C3 at the concrete demonstration store. -/
theorem verify_internal_link_roundtrip_witness :
    (verify_internal_link (resourcesRoute ++ demoResource.uuid) demoStore).valid = true ∧
    (verify_internal_link (resourcesRoute ++ demoResource.uuid) demoStore).uuid =
      some demoResource.uuid ∧
    (verify_internal_link (resourcesRoute ++ demoResource.uuid) demoStore).error = none :=
  verify_internal_link_roundtrip demoStore demoResource (by decide) (by decide)

/-- C4 (amended): link rejection and result invariants of
`verify_internal_link`.  A link lacking the `/resources/` prefix, or whose
suffix fails the code's UUID pattern (an 8-4-4-4-12 hexadecimal identifier,
optionally followed by one trailing newline — Python `$` semantics), is
rejected with `uuid = none` and a non-null error; a pattern-accepted suffix
absent from the store is rejected with `uuid` set to that suffix and a
non-null error; `valid = true` implies the extracted uuid is non-null and
resolves in the store; and `valid = false` implies the error is non-null. -/
theorem verify_internal_link_rejection (link : List Char) (store : ResourceStore) :
    (resourcesRoute.isPrefixOf link = false →
      verify_internal_link link store =
        { valid := false, uuid := none,
          error := some ((String.toList "Link must start with /resources/, got: ") ++ link) }) ∧
    (resourcesRoute.isPrefixOf link = true →
      UUID_PATTERN_match (link.drop resourcesRoute.length) = false →
      verify_internal_link link store =
        { valid := false, uuid := none,
          error := some ((String.toList "Invalid UUID format: ") ++
            link.drop resourcesRoute.length) }) ∧
    (resourcesRoute.isPrefixOf link = true →
      UUID_PATTERN_match (link.drop resourcesRoute.length) = true →
      store.get_by_uuid (link.drop resourcesRoute.length) = none →
      verify_internal_link link store =
        { valid := false, uuid := some (link.drop resourcesRoute.length),
          error := some ((String.toList "UUID not found in resource store: ") ++
            link.drop resourcesRoute.length) }) ∧
    ((verify_internal_link link store).valid = true →
      ∃ u r, (verify_internal_link link store).uuid = some u ∧
        store.get_by_uuid u = some r) ∧
    ((verify_internal_link link store).valid = false →
      (verify_internal_link link store).error ≠ none) := by
  refine ⟨?_, ?_, ?_, ?_, ?_⟩
  · intro h
    simp [verify_internal_link, h]
  · intro h1 h2
    simp [verify_internal_link, h1, h2]
  · intro h1 h2 h3
    simp [verify_internal_link, h1, h2, h3]
  · intro hv
    by_cases hp : resourcesRoute.isPrefixOf link
    · by_cases hf : UUID_PATTERN_match (link.drop resourcesRoute.length)
      · cases hfind : store.get_by_uuid (link.drop resourcesRoute.length) with
        | none => exact absurd hv (by simp [verify_internal_link, hp, hf, hfind])
        | some r =>
            refine ⟨link.drop resourcesRoute.length, r, ?_, hfind⟩
            simp [verify_internal_link, hp, hf, hfind]
      · exact absurd hv (by simp [verify_internal_link, hp, hf])
    · exact absurd hv (by simp [verify_internal_link, hp])
  · intro hv
    by_cases hp : resourcesRoute.isPrefixOf link
    · by_cases hf : UUID_PATTERN_match (link.drop resourcesRoute.length)
      · cases hfind : store.get_by_uuid (link.drop resourcesRoute.length) with
        | none => simp [verify_internal_link, hp, hf, hfind]
        | some r => exact absurd hv (by simp [verify_internal_link, hp, hf, hfind])
      · simp [verify_internal_link, hp, hf]
    · simp [verify_internal_link, hp]

/-- Witness for C4: the three rejection shapes at concrete links (a link with
the wrong prefix, a malformed identifier, and a well-formed identifier that an
empty store does not contain). -/
theorem verify_internal_link_rejection_witness :
    verify_internal_link (String.toList "http://example.com") { resources := [] } =
      { valid := false, uuid := none,
        error := some ((String.toList "Link must start with /resources/, got: ") ++
          String.toList "http://example.com") } ∧
    verify_internal_link (String.toList "/resources/not-a-uuid") { resources := [] } =
      { valid := false, uuid := none,
        error := some ((String.toList "Invalid UUID format: ") ++
          (String.toList "/resources/not-a-uuid").drop resourcesRoute.length) } ∧
    verify_internal_link
        (String.toList "/resources/550e8400-e29b-41d4-a716-446655440001")
        { resources := [] } =
      { valid := false,
        uuid := some ((String.toList "/resources/550e8400-e29b-41d4-a716-446655440001").drop
          resourcesRoute.length),
        error := some ((String.toList "UUID not found in resource store: ") ++
          (String.toList "/resources/550e8400-e29b-41d4-a716-446655440001").drop
            resourcesRoute.length) } :=
  ⟨(verify_internal_link_rejection _ _).1 (by decide),
   (verify_internal_link_rejection _ _).2.1 (by decide) (by decide),
   (verify_internal_link_rejection _ _).2.2.1 (by decide) (by decide) (by decide)⟩

/-- C4 counterexample: the original claim is false on the code.  The suffix
`550e8400-e29b-41d4-a716-446655440001` followed by a newline is not an
8-4-4-4-12 hexadecimal identifier (spec syntax, first conjunct), yet the
code's pattern accepts it — Python's `$` also matches before a trailing
newline — so verifying the corresponding link against an empty store passes
the format check, reaches the store lookup, and returns the not-found shape
with a non-null extracted id, where the claim demands `id == null` for every
malformed suffix. -/
theorem verify_internal_link_newline_counterexample :
    uuidSpecFormat (demoResource.uuid ++ [Char.ofNat 10]) = false ∧
    verify_internal_link (resourcesRoute ++ demoResource.uuid ++ [Char.ofNat 10])
        { resources := [] } =
      { valid := false,
        uuid := some (demoResource.uuid ++ [Char.ofNat 10]),
        error := some ((String.toList "UUID not found in resource store: ") ++
          (demoResource.uuid ++ [Char.ofNat 10])) } := by
  refine ⟨by decide, by decide⟩

/-! ## Tag extractor (`src/services/nl_tag_extractor.py`) -/

/-- `TagExtractionResult` (src/services/nl_tag_extractor.py lines 12–23): a
NamedTuple with exactly the fields `tags`, `confidence` and `ambiguous`. -/
structure TagExtractionResult where
  tags : List (List Char)
  confidence : ℚ
  ambiguous : Bool
deriving DecidableEq, Repr

/-- The NamedTuple `TagExtractionResult` defines only `tags`, `confidence`
and `ambiguous`; the accesses `extraction.reasoning` in
`NLSearchService.search` (src/services/nl_search_service.py lines 65, 78
and 99) therefore raise `AttributeError` in Python, which this embedding
makes explicit. -/
def TagExtractionResult.getReasoning (_r : TagExtractionResult) :
    Except PyErr (List Char) :=
  .error (.attributeError (String.toList "TagExtractionResult")
    (String.toList "reasoning"))

/-- The word characters of the regex `\b` boundary (ASCII fragment of
Python's `\w`): letters, digits and underscore. -/
def isWordChar (c : Char) : Bool :=
  ('a' ≤ c && c ≤ 'z') || ('A' ≤ c && c ≤ 'Z') || ('0' ≤ c && c ≤ '9') || c = '_'

/-- Whether position `i` of `cs` is inside a word character (out-of-range
positions count as non-word). -/
def wordAt (cs : List Char) (i : Nat) : Bool :=
  match cs.get? i with
  | some c => isWordChar c
  | none => false

/-- A `\b` word boundary between positions `i - 1` and `i` of `cs`: exactly
one of the two adjacent positions holds a word character. -/
def boundaryAt (cs : List Char) (i : Nat) : Bool :=
  match i with
  | 0 => wordAt cs 0
  | j + 1 => (wordAt cs j) != (wordAt cs (j + 1))

/-- The regex `\b<tag>\b` (with `tag` escaped, hence literal) matches `cs` at
position `i`. -/
def wordMatchAt (tag cs : List Char) (i : Nat) : Bool :=
  boundaryAt cs i && tag.isPrefixOf (cs.drop i) && boundaryAt cs (i + tag.length)

/-- `re.search` for the pattern `\b<tag>\b` over `cs`: a match exists at some
position (src/services/nl_tag_extractor.py lines 138–141). -/
def reSearchWord (tag cs : List Char) : Bool :=
  (List.range (cs.length + 1)).any (fun i => wordMatchAt tag cs i)

/-- ASCII `str.lower()` on a single character. -/
def pyToLower (c : Char) : Char :=
  if 'A' ≤ c && c ≤ 'Z' then Char.ofNat (c.toNat + 32) else c

/-- `NLTagExtractor._keyword_extract` (src/services/nl_tag_extractor.py
lines 125–161): lower-case the query, collect the available tags with a
whole-word match in canonical order, then assign confidence and ambiguity. -/
def keyword_extract (available_tags : List (List Char)) (query : List Char) :
    TagExtractionResult :=
  let query_lower := query.map pyToLower
  let matched_tags := available_tags.filter (fun tag => reSearchWord tag query_lower)
  if matched_tags.isEmpty then
    { tags := [], confidence := 0, ambiguous := false }
  else
    { tags := matched_tags,
      confidence := if matched_tags.length = 1 then 1 else 1/2,
      ambiguous := decide (1 < matched_tags.length) }

/-- Python's `str.strip()` whitespace class (ASCII fragment). -/
def isPySpace (c : Char) : Bool :=
  c = ' ' || c = '\t' || c = '\n' || c = '\r' || c = Char.ofNat 11 || c = Char.ofNat 12

/-- Python `str.strip()`: drop leading and trailing whitespace. -/
def pyStrip (cs : List Char) : List Char :=
  ((cs.dropWhile isPySpace).reverse.dropWhile isPySpace).reverse

/-- Python `str.split(",")`: split on every comma; the empty string yields a
single empty part. -/
def pySplitComma : List Char → List (List Char)
  | [] => [[]]
  | c :: rest =>
      let r := pySplitComma rest
      if c = ',' then [] :: r
      else
        match r with
        | g :: gs => (c :: g) :: gs
        | [] => [[c]]

/-- The parsing and allow-list filtering of the LLM output in
`NLTagExtractor.extract` (src/services/nl_tag_extractor.py lines 99–103):
strip the raw `top_tags` text, split on commas, strip each token, and keep
only tokens present in the canonical tag set. -/
def llmParseValidTags (available_tags : List (List Char)) (raw : List Char) :
    List (List Char) :=
  ((pySplitComma (pyStrip raw)).map pyStrip).filter (fun t => t ∈ available_tags)

/-- `NLTagExtractor.extract` (src/services/nl_tag_extractor.py lines 81–123).
The DSPy model call is external; its outcome is passed in as `lmOut`:
`none` models an extractor constructed without an LM (fallback mode),
`some (.error e)` a model call that raised, and `some (.ok raw)` a model call
returning `raw` as its `top_tags` text.  If no valid tag survives filtering,
or on any model exception, the keyword fallback runs. -/
def NLTagExtractor.extract (available_tags : List (List Char))
    (ambiguity_threshold : ℚ) (query : List Char)
    (lmOut : Option (Except PyErr (List Char))) : TagExtractionResult :=
  match lmOut with
  | some (.ok raw) =>
      let valid_tags := llmParseValidTags available_tags raw
      if valid_tags.isEmpty then keyword_extract available_tags query
      else
        let confidence : ℚ := if valid_tags.length = 1 then 1 else 7/10
        { tags := valid_tags,
          confidence := confidence,
          ambiguous := decide (1 < valid_tags.length) &&
            decide (1 - confidence < ambiguity_threshold) }
  | some (.error _) => keyword_extract available_tags query
  | none => keyword_extract available_tags query

/-- The demonstration canonical tag set (available tags) used in witnesses,
matching the spec's end-to-end example. -/
def demoTags : List (List Char) := [String.toList "hiking", String.toList "finance"]

/-- C8: the keyword fallback returns exactly the canonical tags with a
case-insensitive whole-word match in the query, in canonical tag-set order
(it is a filter of the available tag list over the lower-cased query);
exactly one match gives confidence 1.0 with `ambiguous = false`, more than
one gives confidence 0.5 with `ambiguous = true`, and zero matches give an
empty tag list with confidence 0.0 and `ambiguous = false`. -/
theorem keyword_extract_spec (available_tags : List (List Char)) (query : List Char) :
    (keyword_extract available_tags query).tags =
      available_tags.filter (fun tag => reSearchWord tag (query.map pyToLower)) ∧
    ((keyword_extract available_tags query).tags.length = 1 →
      (keyword_extract available_tags query).confidence = 1 ∧
      (keyword_extract available_tags query).ambiguous = false) ∧
    (1 < (keyword_extract available_tags query).tags.length →
      (keyword_extract available_tags query).confidence = 1/2 ∧
      (keyword_extract available_tags query).ambiguous = true) ∧
    ((keyword_extract available_tags query).tags = [] →
      (keyword_extract available_tags query).confidence = 0 ∧
      (keyword_extract available_tags query).ambiguous = false) := by
  by_cases he :
      (available_tags.filter (fun tag => reSearchWord tag (query.map pyToLower))).isEmpty
  · have hnil : available_tags.filter (fun tag => reSearchWord tag (query.map pyToLower)) = [] :=
      List.isEmpty_iff.mp he
    refine ⟨?_, ?_, ?_, ?_⟩ <;> simp [keyword_extract, he, hnil]
  · refine ⟨?_, ?_, ?_, ?_⟩
    · simp [keyword_extract, he]
    · intro hlen
      simp [keyword_extract, he] at hlen ⊢
      simp [hlen]
    · intro hlen
      simp [keyword_extract, he] at hlen ⊢
      have hne1 : (available_tags.filter
          (fun tag => reSearchWord tag (query.map pyToLower))).length ≠ 1 := by omega
      simp [hne1, hlen]
    · intro htags
      simp [keyword_extract, he] at htags
      have hnil : available_tags.filter (fun tag => reSearchWord tag (query.map pyToLower)) = [] :=
        List.filter_eq_nil_iff.mpr (fun a ha => by simp [htags a ha])
      simp [hnil] at he

/-- Witness for C8: the spec's end-to-end example — available tags
`hiking, finance`, query `I love hiking` — yields exactly one matched tag with
confidence 1.0 and no ambiguity. -/
theorem keyword_extract_spec_witness :
    (keyword_extract demoTags (String.toList "I love hiking")).tags =
      demoTags.filter
        (fun tag => reSearchWord tag ((String.toList "I love hiking").map pyToLower)) ∧
    (keyword_extract demoTags (String.toList "I love hiking")).confidence = 1 ∧
    (keyword_extract demoTags (String.toList "I love hiking")).ambiguous = false := by
  obtain ⟨h1, h2, -, -⟩ := keyword_extract_spec demoTags (String.toList "I love hiking")
  exact ⟨h1, h2 (by decide)⟩

/-- C7: in the LLM path of `extract`, whenever at least one valid tag
survives the allow-list filter, exactly one valid tag yields confidence 1.0,
more than one yields confidence 0.7, the ambiguous flag is true only if more
than one tag was returned and `1.0 - confidence < ambiguity_threshold`, and
with the default threshold 0.15 every multi-tag LLM-path result has
`ambiguous = false`. -/
theorem extract_llm_confidence (available_tags : List (List Char))
    (ambiguity_threshold : ℚ) (query raw : List Char)
    (h : llmParseValidTags available_tags raw ≠ []) :
    (NLTagExtractor.extract available_tags ambiguity_threshold query
        (some (.ok raw))).tags = llmParseValidTags available_tags raw ∧
    ((llmParseValidTags available_tags raw).length = 1 →
      (NLTagExtractor.extract available_tags ambiguity_threshold query
        (some (.ok raw))).confidence = 1) ∧
    (1 < (llmParseValidTags available_tags raw).length →
      (NLTagExtractor.extract available_tags ambiguity_threshold query
        (some (.ok raw))).confidence = 7/10) ∧
    ((NLTagExtractor.extract available_tags ambiguity_threshold query
        (some (.ok raw))).ambiguous = true →
      1 < (llmParseValidTags available_tags raw).length ∧
      1 - (NLTagExtractor.extract available_tags ambiguity_threshold query
        (some (.ok raw))).confidence < ambiguity_threshold) ∧
    (ambiguity_threshold = 3/20 →
      1 < (llmParseValidTags available_tags raw).length →
      (NLTagExtractor.extract available_tags ambiguity_threshold query
        (some (.ok raw))).ambiguous = false) := by
  have hne : (llmParseValidTags available_tags raw).isEmpty = false := by
    simpa [List.isEmpty_iff] using h
  refine ⟨?_, ?_, ?_, ?_, ?_⟩
  · simp [NLTagExtractor.extract, hne]
  · intro hlen
    simp [NLTagExtractor.extract, hne, hlen]
  · intro hlen
    have hne1 : (llmParseValidTags available_tags raw).length ≠ 1 := by omega
    simp [NLTagExtractor.extract, hne, hne1]
  · intro hamb
    simp only [NLTagExtractor.extract, hne, Bool.false_eq_true, if_false,
      Bool.and_eq_true, decide_eq_true_eq] at hamb ⊢
    exact hamb
  · intro ht hlen
    have hne1 : (llmParseValidTags available_tags raw).length ≠ 1 := by omega
    simp [NLTagExtractor.extract, hne, hne1, ht, hlen]
    norm_num

/-- Witness for C7: the raw model output `hiking, finance` against the
demonstration tag set survives filtering with two tags; at the default
threshold 0.15 the result has confidence 0.7 and is not ambiguous. -/
theorem extract_llm_confidence_witness :
    llmParseValidTags demoTags (String.toList "hiking, finance") ≠ [] ∧
    (NLTagExtractor.extract demoTags (3/20) (String.toList "anything")
        (some (.ok (String.toList "hiking, finance")))).confidence = 7/10 ∧
    (NLTagExtractor.extract demoTags (3/20) (String.toList "anything")
        (some (.ok (String.toList "hiking, finance")))).ambiguous = false := by
  have h : llmParseValidTags demoTags (String.toList "hiking, finance") ≠ [] := by decide
  obtain ⟨-, -, h3, -, h5⟩ :=
    extract_llm_confidence demoTags (3/20) (String.toList "anything")
      (String.toList "hiking, finance") h
  exact ⟨h, h3 (by decide), h5 rfl (by decide)⟩

/-- C9 (code defect): the claim says every extraction result carries a
`reasoning` string (a fixed literal on the keyword path with a match, empty
with none), but the source's `TagExtractionResult` NamedTuple defines no
`reasoning` field at all, so reading it from a keyword-path result — as
`NLSearchService.search` does — raises `AttributeError`. -/
theorem keyword_extract_reasoning_attribute_error :
    (keyword_extract demoTags (String.toList "I love hiking")).getReasoning =
      .error (.attributeError (String.toList "TagExtractionResult")
        (String.toList "reasoning")) := rfl

/-! ## NL search service (`src/services/nl_search_service.py`) -/

/-- `ResourceItem` (src/api/schemas.py lines 112–135): the DTO returned by
NL search. -/
structure ResourceItem where
  uuid : List Char
  name : List Char
  summary : List Char
  link : List Char
  tags : List (List Char)
deriving DecidableEq, Repr

/-- `NLSearchService._build_resource_items`
(src/services/nl_search_service.py lines 101–131): build one item per
resource, with the summary truncated to 200 characters plus an ellipsis when
the description is longer, the internal deep link, and the driving tag list. -/
def NLSearchService.build_resource_items (resources : List Resource)
    (tags : List (List Char)) : List ResourceItem :=
  resources.map (fun resource =>
    { uuid := resource.uuid,
      name := resource.name,
      summary :=
        if 200 < resource.description.length then
          resource.description.take 200 ++ String.toList "..."
        else resource.description,
      link := resourcesRoute ++ resource.uuid,
      tags := tags })

/-- Python `", ".join`. -/
def joinCommaSpace : List (List Char) → List Char
  | [] => []
  | [x] => x
  | x :: xs => x ++ String.toList ", " ++ joinCommaSpace xs

/-- `NLSearchService.search` (src/services/nl_search_service.py lines 38–99),
with the injected extractor modelled as a function from the query to its
`TagExtractionResult` (in fallback mode this is `keyword_extract`).  The body
follows the source line by line inside the `Except PyErr` monad:

* no-match branch (lines 60–65): compute the suggestions and guidance
  message, then build the return tuple — whose last component reads
  `extraction.reasoning`, an attribute `TagExtractionResult` does not define;
* ambiguity branch (lines 68–78): compute the refinement message, then call
  `self.resource_store.get_by_tags(...)`, a method `ResourceStore` does not
  define;
* standard branch (lines 81–99): call `get_by_tags`, cap, build items, run
  the (log-only) verification loop, and return a tuple that again reads
  `extraction.reasoning`. -/
def NLSearchService.search (resource_store : ResourceStore)
    (extractor : List Char → TagExtractionResult) (default_cap : Nat)
    (query : List Char) (cap : Option Nat) :
    Except PyErr (List ResourceItem × Option (List Char) × List (List Char) × List Char) := do
  let result_cap := cap.getD default_cap
  let extraction := extractor query
  if extraction.tags.isEmpty then
    let suggestions := resource_store.get_unique_tags.take 3
    let message := (String.toList "No matching resources found. Try searching with tags like: ")
      ++ joinCommaSpace suggestions
    let reasoning ← extraction.getReasoning
    return ([], some message, suggestions, reasoning)
  else if extraction.ambiguous && decide (1 < extraction.tags.length) then
    let message := (String.toList "Your query matches multiple categories. Did you mean: ")
      ++ joinCommaSpace extraction.tags
      ++ (String.toList "? Please refine your query.")
    let resources := (← resource_store.get_by_tags extraction.tags).take result_cap
    let items := NLSearchService.build_resource_items resources extraction.tags
    let reasoning ← extraction.getReasoning
    return (items, some message, extraction.tags, reasoning)
  else
    let resources ← resource_store.get_by_tags extraction.tags
    let capped_resources := resources.take result_cap
    let items := NLSearchService.build_resource_items capped_resources extraction.tags
    let reasoning ← extraction.getReasoning
    return (items, none, [], reasoning)

/-- Binding a raised exception propagates it. -/
theorem except_error_bind {ε α β : Type} (e : ε) (f : α → Except ε β) :
    (Except.error e >>= f) = Except.error e := rfl

/-- Mapping over a raised exception propagates it. -/
theorem except_error_map {ε α β : Type} (e : ε) (f : α → β) :
    (f <$> (Except.error e : Except ε α)) = Except.error e := rfl

/-- C2: `NLSearchService.search` never returns normally — for every store,
extractor, cap and query it raises an `AttributeError`: on the no-match path
the `extraction.reasoning` read fails (the NamedTuple defines no such field),
and on every path with a non-empty extracted tag list the
`resource_store.get_by_tags` call fails first (the store defines no such
method). -/
theorem search_always_attribute_error (resource_store : ResourceStore)
    (extractor : List Char → TagExtractionResult) (default_cap : Nat)
    (query : List Char) (cap : Option Nat) :
    NLSearchService.search resource_store extractor default_cap query cap =
      .error (if (extractor query).tags.isEmpty then
        .attributeError (String.toList "TagExtractionResult") (String.toList "reasoning")
      else
        .attributeError (String.toList "ResourceStore") (String.toList "get_by_tags")) := by
  by_cases he : (extractor query).tags.isEmpty
  · simp [NLSearchService.search, he, TagExtractionResult.getReasoning,
      except_error_bind, except_error_map]
  · by_cases ha : (extractor query).ambiguous && decide (1 < (extractor query).tags.length)
    · simp [NLSearchService.search, he, ha, ResourceStore.get_by_tags,
        except_error_bind, except_error_map]
    · simp [NLSearchService.search, he, ha, ResourceStore.get_by_tags,
        except_error_bind, except_error_map]

/-- A store holding six distinct resources all tagged `home` — more matching
resources than the default cap of 5. -/
def homeStore : ResourceStore :=
  { resources := (List.range 6).map (fun i =>
      { uuid := String.toList "00000000-0000-4000-8000-00000000000" ++ [Char.ofNat (48 + i)],
        name := String.toList "Home " ++ [Char.ofNat (48 + i)],
        description := String.toList "A home resource.",
        search_tag := String.toList "home" }) }

/-- C5 (code defect): the cap invariant cannot hold — on a query whose
extracted tag matches six resources (cap 5), `search` raises the
`get_by_tags` `AttributeError` instead of returning exactly 5 items.  The
last two conjuncts certify the failing input: the store holds 6 matching
resources and the keyword extractor extracts the single tag `home`. -/
theorem search_cap_attribute_error :
    NLSearchService.search homeStore
        (keyword_extract [String.toList "home"]) 5 (String.toList "home") none =
      .error (.attributeError (String.toList "ResourceStore")
        (String.toList "get_by_tags")) ∧
    homeStore.count = 6 ∧
    (keyword_extract [String.toList "home"] (String.toList "home")).tags =
      [String.toList "home"] := by
  refine ⟨by rfl, by decide, by decide⟩

/-- C6 (code defect): the no-match contract cannot hold — on a query from
which no tags are extracted, `search` computes the guidance message and the
(1-to-3) suggested tags but then raises the `reasoning` `AttributeError`
while building the return tuple.  The last two conjuncts certify the failing
input: no tags are extracted and the store offers a non-empty tag list to
draw suggestions from. -/
theorem search_no_match_attribute_error :
    NLSearchService.search homeStore
        (keyword_extract [String.toList "home"]) 5
        (String.toList "quantum computing") none =
      .error (.attributeError (String.toList "TagExtractionResult")
        (String.toList "reasoning")) ∧
    (keyword_extract [String.toList "home"] (String.toList "quantum computing")).tags = [] ∧
    homeStore.get_unique_tags.take 3 = [String.toList "home"] := by
  refine ⟨by rfl, by decide, by decide⟩

/-! ## Retrieval agent (`src/services/agent/react_agent.py`) -/

/-- A validated citation, `{title, url, summary: optional}`.  The source
imports this class as `ResourceCitation` from `src/api/schemas.py`; the class
of that shape defined there is `Citation` (title, url, optional summary), and
the agent constructs it with `title=item.name, url=item.link,
summary=item.summary`. -/
structure ResourceCitation where
  title : List Char
  url : List Char
  summary : Option (List Char)
deriving DecidableEq, Repr

/-- `AgentErrorCode` (src/api/schemas.py lines 194–198). -/
inductive AgentErrorCode where
  | TOOL_TIMEOUT
  | INTERNAL_ERROR
deriving DecidableEq, Repr

/-- The dict returned by `ReACTAgent.run`: either
`{answer, query, meta: {experimental: true}}` with an optional `resources`
list (`success`; the `meta` member is the constant `{experimental: true}` and
is not carried as data), or `{error, code, query}` (`failure`). -/
inductive AgentResponse where
  | success (answer : List Char) (query : List Char)
      (resources : Option (List ResourceCitation))
  | failure (error : List Char) (code : AgentErrorCode) (query : List Char)
deriving DecidableEq, Repr

/-- `ReACTAgent._validate_resource_tool` (src/services/agent/react_agent.py
lines 140–170), parameterized by the behavior `vl` of the injected
`link_verifier.verify_link` (which may raise): the verifier's Boolean on a
normal return, `False` on any exception.  The structured stdout logger is
modelled as a no-op (Python's `logging` swallows handler errors). -/
def ReACTAgent.validate_resource_tool (vl : List Char → Except PyErr Bool)
    (url : List Char) : Bool :=
  match vl url with
  | .ok is_valid => is_valid
  | .error _ => false

/-- C10: the agent's `validate_resource` tool never propagates an exception:
when the underlying `verify_link` call raises it returns `False`
(fail-closed), and otherwise it returns exactly `verify_link`'s Boolean
result. -/
theorem validate_resource_tool_fail_closed (vl : List Char → Except PyErr Bool)
    (url : List Char) :
    (∀ e : PyErr, vl url = .error e →
      ReACTAgent.validate_resource_tool vl url = false) ∧
    (∀ b : Bool, vl url = .ok b →
      ReACTAgent.validate_resource_tool vl url = b) := by
  constructor
  · intro e he
    simp [ReACTAgent.validate_resource_tool, he]
  · intro b hb
    simp [ReACTAgent.validate_resource_tool, hb]

/-- Witness for C10: a verifier that raises yields `False`; the real
`LinkVerifier.verify_link` on a link that resolves in the demonstration store
yields `True` and the tool passes it through. -/
theorem validate_resource_tool_fail_closed_witness :
    ReACTAgent.validate_resource_tool
      (fun _ => .error (.exc (String.toList "network down")))
      (String.toList "/resources/x") = false ∧
    ReACTAgent.validate_resource_tool
      (fun u => .ok (LinkVerifier.verify_link demoStore u))
      (resourcesRoute ++ demoResource.uuid) = true := by
  constructor
  · exact (validate_resource_tool_fail_closed _ _).1 _ rfl
  · rw [(validate_resource_tool_fail_closed
      (fun u => .ok (LinkVerifier.verify_link demoStore u))
      (resourcesRoute ++ demoResource.uuid)).2 _ rfl]
    decide

/-- Boolean substring test: `pat in cs` for Python strings. -/
def containsSub (pat cs : List Char) : Bool :=
  (List.range (cs.length + 1)).any (fun i => pat.isPrefixOf (cs.drop i))

/-- The fixed unavailable-agent error message
(src/services/agent/react_agent.py lines 195–198). -/
def agentUnavailableMsg : List Char :=
  String.toList "Agent is currently unavailable. The language model backend could not be initialized. Please check that Ollama is running and the configured model is available."

/-- The fixed apology answer for the no-evidence case
(src/services/agent/react_agent.py lines 279–284). -/
def agentApologyAnswer : List Char :=
  String.toList "I couldn" ++ [Char.ofNat 39] ++
    String.toList "t find sufficient information to answer your query. This might be because the query is too specific, too broad, or the relevant resources are not yet in the system. Try rephrasing your query or making it more specific."

/-- The fixed unexpected-error message
(src/services/agent/react_agent.py line 289). -/
def agentUnexpectedErrorMsg : List Char :=
  String.toList "An unexpected error occurred while processing your query."

/-- The outer `except Exception` handler of `ReACTAgent.run`
(src/services/agent/react_agent.py lines 273–297): lower-case the exception
text; if it contains a no-evidence phrase, answer with the fixed apology (a
success with no resources); otherwise return the INTERNAL_ERROR shape. -/
def ReACTAgent.handleRunExc (e : PyErr) (query : List Char) : AgentResponse :=
  let error_str := e.message.map pyToLower
  if containsSub (String.toList "no resources found") error_str ||
      containsSub (String.toList "no information") error_str then
    .success agentApologyAnswer query none
  else
    .failure agentUnexpectedErrorMsg .INTERNAL_ERROR query

/-- Whether an item's link verifies: `verify_link` returned `True` (a raised
exception or a `False` both count as not validated). -/
def passesValidation (vl : List Char → Except PyErr Bool) (item : ResourceItem) : Bool :=
  match vl item.link with
  | .ok true => true
  | .ok false => false
  | .error _ => false

/-- The construction `ResourceCitation(title=item.name, url=item.link,
summary=item.summary)` at src/services/agent/react_agent.py line 239.  The
module imports `ResourceCitation` from `src/api/schemas.py` (react_agent.py
line 10), but that module defines no class of this name (the class of this
shape there is `Citation`), so loading the agent module raises
`ImportError`, and even with the import repaired the name would not resolve
at the construction site.  The embedding makes the failing evaluation of the
missing name explicit: the construction never produces a citation. -/
def ResourceCitationConstruct (_item : ResourceItem) : Except PyErr ResourceCitation :=
  .error (.exc (String.toList
    "cannot import name ResourceCitation from src.api.schemas"))

/-- One iteration of the citation-filtering loop
(src/services/agent/react_agent.py lines 217–255): skip the item when the
link fails to verify (`False`: hallucination, logged at WARNING) or when the
verification call raises (logged at ERROR, treated as invalid); when it
verifies, construct the citation — the same inner `except Exception`
(lines 245–255) also catches a failure of that construction and drops the
item. -/
def citeStep (vl : List Char → Except PyErr Bool)
    (validated_resources : List ResourceCitation) (item : ResourceItem) :
    List ResourceCitation :=
  match vl item.link with
  | .ok true =>
      match ResourceCitationConstruct item with
      | .ok citation => validated_resources ++ [citation]
      | .error _ => validated_resources
  | .ok false => validated_resources
  | .error _ => validated_resources

/-- The full citation-filtering loop over the top-3 search results
(src/services/agent/react_agent.py lines 216–255). -/
def validatedCitations (vl : List Char → Except PyErr Bool)
    (resource_items : List ResourceItem) : List ResourceCitation :=
  (resource_items.take 3).foldl (citeStep vl) []

/-- The final response assembly (src/services/agent/react_agent.py
lines 262–271): `resources` is attached only when `include_sources` is true
and the citation list is non-empty. -/
def attachResources (include_sources : Bool)
    (resources : List ResourceCitation) : Option (List ResourceCitation) :=
  if include_sources && !resources.isEmpty then some resources else none

/-- `ReACTAgent.run` (src/services/agent/react_agent.py lines 172–297).  The
parameters model the constructor-injected collaborators and the external
model call, exactly as the repository's own unit tests inject them:

* `available` — whether `self.lm` and `self.react_agent` were initialized
  (`False` models the permanent-unavailable state);
* `llm` — the outcome of `self.react_agent(question=query)`: the produced
  `answer` text, or the exception it raised;
* `searchRes` — the outcome of `self.nl_search_service.search(query)` in the
  `include_sources` block (an exception there propagates to the outer
  handler);
* `vl` — the behavior of `self.link_verifier.verify_link` on each link.

Session-id generation and logging are identity-free side effects and are not
modelled. -/
def ReACTAgent.run (available : Bool) (llm : Except PyErr (List Char))
    (searchRes : Except PyErr
      (List ResourceItem × Option (List Char) × List (List Char) × List Char))
    (vl : List Char → Except PyErr Bool) (query : List Char)
    (include_sources : Bool) : AgentResponse :=
  if available = false then
    .failure agentUnavailableMsg .INTERNAL_ERROR query
  else
    match llm with
    | .error e => ReACTAgent.handleRunExc e query
    | .ok answer =>
        if include_sources then
          match searchRes with
          | .error e => ReACTAgent.handleRunExc e query
          | .ok (resource_items, _, _, _) =>
              let resources := validatedCitations vl resource_items
              .success answer query (attachResources include_sources resources)
        else
          .success answer query (attachResources include_sources [])

/-- The no-evidence/error handler never attaches resources. -/
theorem handleRunExc_no_resources (e : PyErr) (q a q' : List Char)
    (rs : List ResourceCitation) :
    ReACTAgent.handleRunExc e q ≠ .success a q' (some rs) := by
  unfold ReACTAgent.handleRunExc
  dsimp only
  split <;> simp

/-- Because the citation construction always fails (the `ResourceCitation`
name does not exist), every iteration of the filtering loop leaves the
accumulator unchanged. -/
theorem citeStep_eq_id (vl : List Char → Except PyErr Bool)
    (acc : List ResourceCitation) (item : ResourceItem) :
    citeStep vl acc item = acc := by
  cases hx : vl item.link with
  | error e => simp [citeStep, hx]
  | ok b => cases b <;> simp [citeStep, hx, ResourceCitationConstruct]

/-- The filtering loop therefore always produces the empty citation list. -/
theorem validatedCitations_eq_nil (vl : List Char → Except PyErr Bool)
    (resource_items : List ResourceItem) :
    validatedCitations vl resource_items = [] := by
  unfold validatedCitations
  suffices h : ∀ (l : List ResourceItem) (acc : List ResourceCitation),
      l.foldl (citeStep vl) acc = acc from h _ _
  intro l
  induction l with
  | nil => intro acc; rfl
  | cons x xs ih =>
      intro acc
      rw [List.foldl_cons, citeStep_eq_id]
      exact ih acc

/-- A candidate item whose link resolves in the demonstration store. -/
def demoRealItem : ResourceItem :=
  { uuid := demoResource.uuid,
    name := demoResource.name,
    summary := demoResource.description,
    link := resourcesRoute ++ demoResource.uuid,
    tags := [String.toList "hiking"] }

/-- A fabricated candidate item: its link is well-formed but its uuid is
absent from the demonstration store, so verification fails. -/
def demoFakeItem : ResourceItem :=
  { uuid := String.toList "00000000-0000-0000-0000-000000000000",
    name := String.toList "Fabricated Guide",
    summary := String.toList "Not a real resource.",
    link := String.toList "/resources/00000000-0000-0000-0000-000000000000",
    tags := [String.toList "hiking"] }

/-- The real link verifier over the demonstration store, wrapped as the
(non-raising) injected dependency of the agent. -/
def demoVerifier (u : List Char) : Except PyErr Bool :=
  .ok (LinkVerifier.verify_link demoStore u)

/-- C1 (code defect): the claimed hallucination filtering is unreachable.
The agent module imports `ResourceCitation` from `src/api/schemas.py`, which
defines no such class, so every citation construction fails and is swallowed
by the inner exception handler: on every run with `includeSources = true`
(agent available, model call returning an answer, search returning candidate
items) the citation list is empty and no `resources` field is ever attached
— even when, as at the demonstration input certified by the second conjunct,
a top-3 candidate does pass `verify_link` and the claim demands a non-empty
citation list. -/
theorem run_citations_always_empty :
    (∀ (vl : List Char → Except PyErr Bool) (query answer : List Char)
        (items : List ResourceItem) (m : Option (List Char))
        (c : List (List Char)) (r : List Char),
      ReACTAgent.run true (.ok answer) (.ok (items, m, c, r)) vl query true =
        .success answer query none) ∧
    [demoRealItem, demoFakeItem].filter (passesValidation demoVerifier) =
      [demoRealItem] := by
  constructor
  · intro vl query answer items m c r
    have hrun : ReACTAgent.run true (.ok answer) (.ok (items, m, c, r)) vl query true =
        .success answer query (attachResources true (validatedCitations vl items)) := rfl
    rw [hrun, validatedCitations_eq_nil]
    rfl
  · decide
